import Mathlib

/-!
Verification of the gomobile-ipfs node orchestration layer.

Shallow embedding of the Go sources:
* `go/pkg/ipfsmobile/repo.go` — `RepoMobile.ApplyPatchs`, `ChainIpfsConfigPatch`
* `go/bind/core/repo.go` — `loadPlugins` plugin singleton
* `go/bind/core/node.go` — `core.NewNode`, `Node.Close`, `ServeConfig`,
  `ServeAPIMultiaddr`, `ServeGatewayMultiaddr`, `isNetworkLimited`
* `go/pkg/ipfsmobile/node.go` — `IpfsConfig.fillDefault`, `ipfsmobile.NewNode`
* `go/pkg/ipfsmobile/host.go` / `routing.go` — option composers
* `go/pkg/ipfsmobile/simple_host.go` — `SimpleHostOption`
* `android/bridge/.../IPFS.java` — `IPFS.start`, `IPFS.isStarted`

External collaborators (kubo repo storage, libp2p, the OS) are modelled as
injectable outcomes: each external call site gets an explicit result field in
an environment record, so every execution path of the embedded code is a
function of that environment.
-/

/-- Errors are carried as plain strings (Go `error` values are only ever
compared by presence and wrapped with string prefixes in this code). -/
abbrev Err := String

/-- The fields of the persisted kubo `config.Config` that this layer reads or
writes: `Discovery.MDNS.Enabled`, `Addresses.API`, `Addresses.Gateway`.
`rest` stands for every other sub-tree of the configuration, which the code
carries around untouched. -/
structure KConfig where
  mdnsEnabled : Bool
  apiAddrs : List String
  gatewayAddrs : List String
  rest : Nat
deriving DecidableEq, Repr

/-- `RepoConfigPatch` (repo.go): a patch mutates the config in place and may
return an error; mutations performed before the error stick to the in-memory
value, hence the returned config alongside the optional error. -/
def RepoConfigPatch := KConfig → Option Err × KConfig

/-- Straight-line runner behind `ChainIpfsConfigPatch`: apply each non-nil
patch in order to the threaded config, stop at the first error. -/
def chainRun : List (Option RepoConfigPatch) → KConfig → Option Err × KConfig
  | [], cfg => (none, cfg)
  | none :: ps, cfg => chainRun ps cfg
  | some p :: ps, cfg =>
    match p cfg with
    | (some e, cfg2) => (some e, cfg2)
    | (none, cfg2) => chainRun ps cfg2

/-- `ChainIpfsConfigPatch` (repo.go, lines 91-109): compose a patch list into
a single patch. -/
def ChainIpfsConfigPatch (ps : List (Option RepoConfigPatch)) : RepoConfigPatch :=
  fun cfg => chainRun ps cfg

/-- `RepoMobile` with its persisted configuration, plus fault injection for
the two external storage calls `Config()` and `SetConfig()` (kubo fsrepo). -/
structure MobileRepo where
  persisted : KConfig
  configReadErr : Option Err
  setConfigErr : Option Err

/-- `RepoMobile.ApplyPatchs` (repo.go, lines 66-80): read the persisted
config, run the composed patch, and persist the rewritten config only when
the chain returned no error. -/
def ApplyPatchs (repo : MobileRepo) (ps : List (Option RepoConfigPatch)) :
    Except Err Unit × MobileRepo :=
  match repo.configReadErr with
  | some e => (.error e, repo)
  | none =>
    match ChainIpfsConfigPatch ps repo.persisted with
    | (some e, _) => (.error e, repo)
    | (none, cfg2) =>
      match repo.setConfigErr with
      | some e => (.error e, repo)
      | none => (.ok (), { repo with persisted := cfg2 })

/-- Claim C2: the chained patch applies each non-nil patch in order to the
same configuration value, skips nil patches, is a no-op success on the empty
sequence, stops at the first failing patch and returns its error with later
patches unapplied; `ApplyPatchs` persists the rewritten configuration only
when the chain succeeds, and on chain failure the persisted configuration is
exactly as before the call. -/
theorem C2_chain_applyPatchs :
    (∀ cfg, ChainIpfsConfigPatch [] cfg = (none, cfg)) ∧
    (∀ ps cfg, ChainIpfsConfigPatch (none :: ps) cfg = ChainIpfsConfigPatch ps cfg) ∧
    (∀ p ps cfg cfg2, p cfg = (none, cfg2) →
      ChainIpfsConfigPatch (some p :: ps) cfg = ChainIpfsConfigPatch ps cfg2) ∧
    (∀ p ps cfg e cfg2, p cfg = (some e, cfg2) →
      ChainIpfsConfigPatch (some p :: ps) cfg = (some e, cfg2)) ∧
    (∀ repo ps e cfg2, repo.configReadErr = none →
      ChainIpfsConfigPatch ps repo.persisted = (some e, cfg2) →
      ApplyPatchs repo ps = (.error e, repo)) ∧
    (∀ repo ps cfg2, repo.configReadErr = none → repo.setConfigErr = none →
      ChainIpfsConfigPatch ps repo.persisted = (none, cfg2) →
      ApplyPatchs repo ps = (.ok (), { repo with persisted := cfg2 })) := by
  refine ⟨fun cfg => rfl, fun ps cfg => rfl, ?_, ?_, ?_, ?_⟩
  · intro p ps cfg cfg2 h
    simp only [ChainIpfsConfigPatch, chainRun, h]
  · intro p ps cfg e cfg2 h
    simp only [ChainIpfsConfigPatch, chainRun, h]
  · intro repo ps e cfg2 hread hchain
    simp only [ApplyPatchs, hread, hchain]
  · intro repo ps cfg2 hread hset hchain
    simp only [ApplyPatchs, hread, hchain, hset]

/-- A config patch that always fails, used to exercise the chain at a
concrete input. -/
def failPatch : RepoConfigPatch := fun cfg => (some "patch failed", cfg)

/-- A config patch that toggles the mDNS flag and succeeds. -/
def toggleMdnsPatch : RepoConfigPatch :=
  fun cfg => (none, { cfg with mdnsEnabled := !cfg.mdnsEnabled })

/-- A concrete persisted configuration used by the witnesses. -/
def kcfg0 : KConfig := ⟨true, ["api1"], ["gw1"], 7⟩

/-- A concrete repository whose storage calls succeed. -/
def repo0 : MobileRepo := ⟨kcfg0, none, none⟩

theorem C2_chain_applyPatchs_witness :
    ApplyPatchs repo0 [some toggleMdnsPatch, some failPatch, some toggleMdnsPatch] =
      (.error "patch failed", repo0) :=
  C2_chain_applyPatchs.2.2.2.2.1 repo0
    [some toggleMdnsPatch, some failPatch, some toggleMdnsPatch]
    "patch failed" { kcfg0 with mdnsEnabled := false } rfl rfl

/-!
## Plugin singleton loader (`go/bind/core/repo.go`, `loadPlugins`)
-/

/-- Outcomes of the three external plugin-subsystem calls made by
`loadPlugins`: `ipfs_loader.NewPluginLoader`, `PluginLoader.Initialize`,
`PluginLoader.Inject`. Loaders are identified by a `Nat`. -/
structure PluginEnv where
  newPluginLoader : String → Except Err Nat
  initStep : Nat → Option Err
  injectStep : Nat → Option Err

/-- The process-wide mutable cell `plugins *ipfs_loader.PluginLoader`
(guarded by `muPlugins`; the mutex itself serialises calls, so a call is
modelled as an atomic state transition). -/
structure PluginState where
  plugins : Option Nat
deriving DecidableEq, Repr

/-- Observable outcome of one `loadPlugins` call: the returned value, the
state of the global cell afterwards, and how many times the initialize phase
and the loader constructor ran during the call. -/
structure PluginCallResult where
  result : Except Err Nat
  state : PluginState
  initRuns : Nat
  constructRuns : Nat
deriving Repr

/-- `loadPlugins` (repo.go, lines 109-144): under the mutex, return the
cached loader if present; otherwise construct a loader for
`repoPath/plugins`, initialize it, inject it, and cache it — caching only on
full success. -/
def loadPlugins (env : PluginEnv) (st : PluginState) (repoPath : String) :
    PluginCallResult :=
  match st.plugins with
  | some lp => ⟨.ok lp, st, 0, 0⟩
  | none =>
    let pluginpath := repoPath ++ "/plugins"
    match env.newPluginLoader pluginpath with
    | .error e => ⟨.error e, st, 0, 1⟩
    | .ok lp =>
      match env.initStep lp with
      | some e => ⟨.error e, st, 1, 1⟩
      | none =>
        match env.injectStep lp with
        | some e => ⟨.error e, st, 1, 1⟩
        | none => ⟨.ok lp, ⟨some lp⟩, 1, 1⟩

/-- Claim C3: once a `loadPlugins` call has succeeded (the cell is filled),
every later call — from any repository path — returns the cached instance
unchanged without constructing or initializing a loader; a successful
fill caches exactly the returned loader; a failing call leaves the cell
empty, and a call that finds the cell empty re-attempts the construction. -/
theorem C3_loadPlugins_singleton :
    (∀ env st path lp, st.plugins = some lp →
      loadPlugins env st path = ⟨.ok lp, st, 0, 0⟩) ∧
    (∀ env st path lp, st.plugins = none →
      (loadPlugins env st path).result = .ok lp →
      (loadPlugins env st path).state.plugins = some lp) ∧
    (∀ env st path e, st.plugins = none →
      (loadPlugins env st path).result = .error e →
      (loadPlugins env st path).state.plugins = none) ∧
    (∀ env st path, st.plugins = none →
      (loadPlugins env st path).constructRuns = 1) := by
  refine ⟨?_, ?_, ?_, ?_⟩
  · intro env st path lp h
    simp only [loadPlugins, h]
  · intro env st path lp h hr
    revert hr
    simp only [loadPlugins, h]
    split
    · intro hr; cases hr
    · split
      · intro hr; cases hr
      · split
        · intro hr; cases hr
        · intro hr; cases hr; rfl
  · intro env st path e h hr
    revert hr
    simp only [loadPlugins, h]
    split
    · intro _; exact h
    · split
      · intro _; exact h
      · split
        · intro _; exact h
        · intro hr; cases hr
  · intro env st path h
    simp only [loadPlugins, h]
    split
    · rfl
    · split
      · rfl
      · split
        · rfl
        · rfl

/-- A plugin environment whose three phases all succeed, returning loader 4. -/
def pluginEnv0 : PluginEnv := ⟨fun _ => .ok 4, fun _ => none, fun _ => none⟩

theorem C3_loadPlugins_singleton_witness :
    loadPlugins pluginEnv0 ⟨some 9⟩ "/data/other-repo" = ⟨.ok 9, ⟨some 9⟩, 0, 0⟩ ∧
    (loadPlugins pluginEnv0 ⟨none⟩ "/data/repo").state.plugins = some 4 :=
  ⟨C3_loadPlugins_singleton.1 pluginEnv0 ⟨some 9⟩ "/data/other-repo" 9 rfl,
   C3_loadPlugins_singleton.2.1 pluginEnv0 ⟨none⟩ "/data/repo" 4 rfl rfl⟩

/-!
## Environment detection and feature selection
(`go/bind/core/node.go`: `isAndroidPlatform`, `isNetworkLimited`, the
configuration block of `core.NewNode`; `go/pkg/ipfsmobile/node.go`:
`IpfsConfig.fillDefault` and the host-option fallback in `NewNode`)
-/

/-- Which `ipfs_p2p.HostOption` value the `HostOption` field of
`IpfsConfig` holds: Go `nil`, the minimal `SimpleHostOption()`, or the
library's `ipfs_p2p.DefaultHostOption`. -/
inductive HostOptChoice where
  | unset
  | simpleHost
  | defaultHost
deriving DecidableEq, Repr

/-- `isAndroidPlatform` (node.go, lines 63-65): `runtime.GOOS == "android"`. -/
def isAndroidPlatform (goos : String) : Bool :=
  goos == "android"

/-- `isNetworkLimited` (node.go, lines 68-83): limited when
`net.InterfaceAddrs()` fails, otherwise limited exactly on Android. -/
def isNetworkLimited (interfaceAddrsErr : Option Err) (goos : String) : Bool :=
  match interfaceAddrsErr with
  | some _ => true
  | none =>
    if isAndroidPlatform goos then true else false

/-- The host-option / extra-options selection of `core.NewNode`
(node.go, lines 170-186). -/
structure NodeFeatureSelection where
  hostOption : HostOptChoice
  extraOpts : List (String × Bool)
deriving DecidableEq, Repr

/-- `core.NewNode`'s feature branch: constrained environments get the
minimal host constructor and the reduced option map; unconstrained
environments leave the host option nil and enable pubsub and ipnsps. -/
def selectNodeFeatures (networkLimited : Bool) : NodeFeatureSelection :=
  if networkLimited then
    { hostOption := .simpleHost,
      extraOpts := [("pubsub", false), ("ipnsps", false), ("dht", false), ("dhtclient", true)] }
  else
    { hostOption := .unset,
      extraOpts := [("pubsub", true), ("ipnsps", true)] }

/-- The `HostOption` branch of `IpfsConfig.fillDefault`
(ipfsmobile/node.go, lines 82-84): a nil host option becomes
`ipfs_p2p.DefaultHostOption`. -/
def resolveHostOption : HostOptChoice → HostOptChoice
  | .unset => .defaultHost
  | c => c

/-- The fields of `ipfsmobile.IpfsConfig` that `fillDefault` inspects;
pointer fields are modelled by presence flags. -/
structure IpfsConfigM where
  repoPresent : Bool
  extraOptsPresent : Bool
  routingOptionPresent : Bool
  routingConfigPresent : Bool
  hostOption : HostOptChoice
  hostConfigPresent : Bool
deriving DecidableEq, Repr

/-- `IpfsConfig.fillDefault` (ipfsmobile/node.go, lines 60-92): fail when the
repo is nil, otherwise fill every missing field with its default —
in particular a nil `HostOption` becomes the library default. -/
def fillDefault (c : IpfsConfigM) : Except Err IpfsConfigM :=
  if !c.repoPresent then
    .error "repo cannot be nil"
  else
    .ok { c with
      extraOptsPresent := true
      routingOptionPresent := true
      routingConfigPresent := true
      hostOption := resolveHostOption c.hostOption
      hostConfigPresent := true }

/-- The host-option resolution performed by `ipfsmobile.NewNode`
(ipfsmobile/node.go, lines 183-197): run `fillDefault`, then fall back to
`SimpleHostOption()` if the host option is still nil. -/
def mobileNewNodeHostChoice (c : IpfsConfigM) : Except Err HostOptChoice :=
  match fillDefault c with
  | .error e => .error ("invalid configuration: " ++ e)
  | .ok c2 => .ok (if c2.hostOption == .unset then .simpleHost else c2.hostOption)

/-- Claim C4: the environment is classified constrained exactly when
interface enumeration fails or the platform is Android; constrained
executions select the minimal host constructor and the option map
pubsub=false, ipnsps=false, dht=false, dhtclient=true; unconstrained
executions set pubsub=true and ipnsps=true and leave the host option to the
library default. -/
theorem C4_constrained_feature_selection :
    (∀ (ifaceErr : Option Err) (goos : String),
      isNetworkLimited ifaceErr goos = (ifaceErr.isSome || (goos == "android"))) ∧
    selectNodeFeatures true =
      { hostOption := .simpleHost,
        extraOpts := [("pubsub", false), ("ipnsps", false), ("dht", false), ("dhtclient", true)] } ∧
    (selectNodeFeatures false).extraOpts = [("pubsub", true), ("ipnsps", true)] ∧
    resolveHostOption (selectNodeFeatures false).hostOption = .defaultHost := by
  refine ⟨?_, rfl, rfl, rfl⟩
  intro ifaceErr goos
  cases ifaceErr with
  | some e => rfl
  | none =>
    simp only [isNetworkLimited, isAndroidPlatform, Option.isSome_none, Bool.false_or]
    by_cases h : goos == "android"
    · simp [h]
    · simp [h]

/-!
## The minimal host constructor (`go/pkg/ipfsmobile/simple_host.go`)
-/

/-- The libp2p options that `SimpleHostOption` assembles, plus opaque
caller-supplied options. -/
inductive P2pOpt where
  | identityKey (k : Nat)
  | peerstoreOpt
  | noListenAddrs
  | disableRelay
  | forceReachabilityPrivate
  | securityTLS
  | securityNoise
  | callerOpt (n : Nat)
deriving DecidableEq, Repr

/-- The host value produced by `p2p.New`: the full option list it was built
from (the only part of the host this layer's claims observe). -/
structure SimpleHost where
  opts : List P2pOpt
deriving DecidableEq, Repr

/-- `SimpleHostOption` (simple_host.go, lines 18-46): resolve the identity's
private key from the peerstore (failing when absent), then build the host
from the static base options followed by the caller-supplied options. The
peerstore is modelled as its `PrivKey` lookup (peer id → optional key). -/
def SimpleHostOption (id : Nat) (psPrivKey : Nat → Option Nat)
    (options : List P2pOpt) : Except Err SimpleHost :=
  match psPrivKey id with
  | none => .error ("missing private key for node ID: " ++ toString id)
  | some pkey =>
    let baseOpts : List P2pOpt :=
      [.identityKey pkey, .peerstoreOpt, .noListenAddrs, .disableRelay,
       .forceReachabilityPrivate, .securityTLS, .securityNoise]
    .ok ⟨baseOpts ++ options⟩

/-- A configuration with a repository but no host config and no host option,
the situation claim C5 speaks about. -/
def cfgNoHost : IpfsConfigM :=
  { repoPresent := true, extraOptsPresent := false, routingOptionPresent := false,
    routingConfigPresent := false, hostOption := .unset, hostConfigPresent := false }

/-- Claim C5 is false on the code: with no HostConfig and no explicit host
option, `fillDefault` has already replaced the nil host option by the
library's `DefaultHostOption`, so `ipfsmobile.NewNode` builds the node with
the default host constructor, not the minimal one (its `SimpleHostOption`
fallback is unreachable). -/
theorem C5_default_not_simple_counterexample :
    mobileNewNodeHostChoice cfgNoHost = .ok .defaultHost ∧
    mobileNewNodeHostChoice cfgNoHost ≠ .ok .simpleHost := by
  constructor
  · rfl
  · intro h; cases h

/-- Claim C5 (amended): when node construction is invoked with no HostConfig
and no explicit host option, the node is built with the library's default
host constructor (`fillDefault` assigns it before the `SimpleHostOption`
fallback is consulted); the minimal host constructor itself, when selected,
resolves the identity's private key from the peer store and fails with a
missing-identity-key error when it is absent, disables passive listen
addresses, forces private reachability, and applies the statically chosen
security-transport options. -/
theorem C5_default_host_and_simple_host :
    (∀ c : IpfsConfigM, c.repoPresent = true → c.hostOption = .unset →
      mobileNewNodeHostChoice c = .ok .defaultHost) ∧
    (∀ id psPrivKey options, psPrivKey id = none →
      SimpleHostOption id psPrivKey options =
        .error ("missing private key for node ID: " ++ toString id)) ∧
    (∀ id psPrivKey k options, psPrivKey id = some k →
      ∃ h, SimpleHostOption id psPrivKey options = .ok h ∧
        P2pOpt.noListenAddrs ∈ h.opts ∧
        P2pOpt.forceReachabilityPrivate ∈ h.opts ∧
        P2pOpt.securityTLS ∈ h.opts ∧
        P2pOpt.securityNoise ∈ h.opts ∧
        P2pOpt.identityKey k ∈ h.opts) := by
  refine ⟨?_, ?_, ?_⟩
  · intro c hrepo hopt
    simp only [mobileNewNodeHostChoice, fillDefault, hrepo, hopt, Bool.not_true,
      Bool.false_eq_true, if_false, resolveHostOption]
    rfl
  · intro id psPrivKey options h
    simp only [SimpleHostOption, h]
  · intro id psPrivKey k options h
    refine ⟨⟨[.identityKey k, .peerstoreOpt, .noListenAddrs, .disableRelay,
      .forceReachabilityPrivate, .securityTLS, .securityNoise] ++ options⟩,
      ?_, ?_, ?_, ?_, ?_, ?_⟩
    · simp [SimpleHostOption, h]
    all_goals simp

/-- A peerstore lookup holding a key only for peer 3. -/
def psOnly3 : Nat → Option Nat := fun id => if id == 3 then some 11 else none

theorem C5_default_host_and_simple_host_witness :
    mobileNewNodeHostChoice cfgNoHost = .ok .defaultHost ∧
    SimpleHostOption 5 psOnly3 [] =
      .error ("missing private key for node ID: " ++ toString 5) ∧
    (∃ h, SimpleHostOption 3 psOnly3 [.callerOpt 0] = .ok h ∧
      P2pOpt.noListenAddrs ∈ h.opts ∧
      P2pOpt.forceReachabilityPrivate ∈ h.opts ∧
      P2pOpt.securityTLS ∈ h.opts ∧
      P2pOpt.securityNoise ∈ h.opts ∧
      P2pOpt.identityKey 11 ∈ h.opts) :=
  ⟨C5_default_host_and_simple_host.1 cfgNoHost rfl rfl,
   C5_default_host_and_simple_host.2.1 5 psOnly3 [] rfl,
   C5_default_host_and_simple_host.2.2 3 psOnly3 11 [.callerOpt 0] rfl⟩

/-!
## `core.NewNode` — the mDNS-lock lifecycle (`go/bind/core/node.go`)
-/

/-- Fault injection for one `ApplyPatchs` call: outcomes of its underlying
`Config()` read and `SetConfig()` write. -/
structure RepoFaults where
  readErr : Option Err
  writeErr : Option Err
deriving DecidableEq, Repr

/-- Build the repo view an `ApplyPatchs` call operates on: the current
persisted config plus the faults injected for that call. -/
def mkRepo (persisted : KConfig) (f : RepoFaults) : MobileRepo :=
  ⟨persisted, f.readErr, f.writeErr⟩

/-- The patch `core.NewNode` applies before node construction:
`cfg.Discovery.MDNS.Enabled = false`. -/
def disableMdnsPatch : RepoConfigPatch :=
  fun cfg => (none, { cfg with mdnsEnabled := false })

/-- The patch `core.NewNode` applies after node construction:
`cfg.Discovery.MDNS.Enabled = true`. -/
def enableMdnsPatch : RepoConfigPatch :=
  fun cfg => (none, { cfg with mdnsEnabled := true })

/-- Outcomes of the external calls `core.NewNode` makes from the
configuration read onward, in program order. `bootstrapErr` is the
`Bootstrap` outcome, which the code only logs. -/
structure StartEnv where
  pluginsLoad : Except Err Unit
  persisted : KConfig
  cfgReadErr : Option Err
  mdnsLockerPresent : Bool
  disableFaults : RepoFaults
  nodeConstruct : Except Err Unit
  enableFaults : RepoFaults
  multicastIfaces : Except Err Nat
  mdnsStartErr : Option Err
  bootstrapErr : Option Err
deriving Repr

/-- How a `core.NewNode` call ends: a node (recording whether the mDNS lock
is held and whether the mDNS service was started), an error return, or a Go
panic. -/
inductive StartOutcome where
  | ok (mdnsLocked : Bool) (mdnsStarted : Bool)
  | err (e : Err)
  | panicked (e : Err)
deriving DecidableEq, Repr

/-- Observable trace of one `core.NewNode` call: its outcome, the number of
`Lock`/`Unlock` calls issued to the mdnsLockerDriver, and the final
persisted configuration. -/
structure StartTrace where
  outcome : StartOutcome
  locks : Nat
  unlocks : Nat
  persisted : KConfig
deriving DecidableEq, Repr

/-- `core.NewNode` (node.go, lines 86-277), from the plugin load through the
return, with the mDNS lock discipline followed verbatim: read the config
(panicking on failure), acquire the lock when mDNS is enabled and a locker
driver is present, patch mDNS off, construct the node (unlocking on
failure), patch mDNS back on (returning the wrapped error on failure —
without unlocking, as written), enumerate multicast interfaces (unlocking on
failure), start the mDNS service only when an interface exists (unlocking on
failure), and finally bootstrap, whose failure is only logged. -/
def coreNewNodeStart (env : StartEnv) : StartTrace :=
  match env.pluginsLoad with
  | .error e => ⟨.err e, 0, 0, env.persisted⟩
  | .ok _ =>
    match env.cfgReadErr with
    | some e => ⟨.panicked e, 0, 0, env.persisted⟩
    | none =>
      if env.persisted.mdnsEnabled && env.mdnsLockerPresent then
        match ApplyPatchs (mkRepo env.persisted env.disableFaults) [some disableMdnsPatch] with
        | (.error e, r) =>
          ⟨.err ("unable to ApplyPatchs to disable mDNS: " ++ e), 1, 0, r.persisted⟩
        | (.ok _, r) =>
          match env.nodeConstruct with
          | .error e => ⟨.err e, 1, 1, r.persisted⟩
          | .ok _ =>
            match ApplyPatchs (mkRepo r.persisted env.enableFaults) [some enableMdnsPatch] with
            | (.error e, r2) =>
              ⟨.err ("unable to ApplyPatchs to enable mDNS: " ++ e), 1, 0, r2.persisted⟩
            | (.ok _, r2) =>
              match env.multicastIfaces with
              | .error e => ⟨.err e, 1, 1, r2.persisted⟩
              | .ok n =>
                if 0 < n then
                  match env.mdnsStartErr with
                  | some e =>
                    ⟨.err ("unable to start mdns service: " ++ e), 1, 1, r2.persisted⟩
                  | none => ⟨.ok true true, 1, 0, r2.persisted⟩
                else
                  ⟨.ok true false, 1, 0, r2.persisted⟩
      else
        match env.nodeConstruct with
        | .error e => ⟨.err e, 0, 0, env.persisted⟩
        | .ok _ => ⟨.ok false false, 0, 0, env.persisted⟩

/-- An execution in which mDNS is enabled, the locker driver is present,
disabling mDNS and constructing the node succeed, and the patch-back
`ApplyPatchs` fails because the configuration write fails. -/
def patchbackFailEnv : StartEnv :=
  { pluginsLoad := .ok ()
    persisted := kcfg0
    cfgReadErr := none
    mdnsLockerPresent := true
    disableFaults := ⟨none, none⟩
    nodeConstruct := .ok ()
    enableFaults := ⟨none, some "disk full"⟩
    multicastIfaces := .ok 1
    mdnsStartErr := none
    bootstrapErr := none }

/-- Claim C1 is violated by the code: on the patch-back failure path the
DiscoveryLock is acquired once and never released — `start` returns the
wrapped error while the lock is still held, so the release-exactly-once
guarantee fails (the claim and the spec require one `Unlock` on this path). -/
theorem C1_patchback_leaks_discoveryLock :
    coreNewNodeStart patchbackFailEnv =
      ⟨.err "unable to ApplyPatchs to enable mDNS: disk full", 1, 0,
        { kcfg0 with mdnsEnabled := false }⟩ ∧
    (coreNewNodeStart patchbackFailEnv).locks = 1 ∧
    (coreNewNodeStart patchbackFailEnv).unlocks = 0 := by
  refine ⟨?_, rfl, rfl⟩
  rfl

/-- An execution in which the configuration read at the start of
`core.NewNode` fails. -/
def cfgReadFailEnv : StartEnv :=
  { patchbackFailEnv with
    cfgReadErr := some "config read failed"
    enableFaults := ⟨none, none⟩ }

/-- Claim C6 is violated by the code: when the persisted-configuration read
fails during `start`, `core.NewNode` panics instead of returning the error —
the failure is not surfaced as a returned configuration error and `start`
terminates abnormally. -/
theorem C6_config_read_panics :
    (coreNewNodeStart cfgReadFailEnv).outcome = .panicked "config read failed" ∧
    ∀ e, (coreNewNodeStart cfgReadFailEnv).outcome ≠ .err e := by
  refine ⟨rfl, ?_⟩
  intro e h
  cases h

/-!
## `Node.Close` and the listener registry (`go/bind/core/node.go`)
-/

/-- The `core.Node` state that `Close` consumes: the registered listeners
(identified by `Nat`) and whether the mDNS lock is held. -/
structure CoreNode where
  listeners : List Nat
  mdnsLocked : Bool
deriving DecidableEq, Repr

/-- The externally observable actions `Node.Close` performs, in order. -/
inductive CloseEffect where
  | lockListeners
  | unlockListeners
  | closeListener (l : Nat)
  | closeMdnsService
  | unlockMdnsLock
  | closeIpfsNode
deriving DecidableEq, Repr

/-- `Node.Close` (node.go, lines 280-297): under the listener lock close
every registered listener; then, if the mDNS lock is held, close the mDNS
service and release the lock; finally close the underlying IPFS node. -/
def nodeClose (n : CoreNode) : List CloseEffect :=
  [.lockListeners] ++ n.listeners.map CloseEffect.closeListener ++ [.unlockListeners]
    ++ (if n.mdnsLocked then [.closeMdnsService, .unlockMdnsLock] else [])
    ++ [.closeIpfsNode]

/-- Claim C7: `Close` closes each registered listener exactly as often as it
was registered (hence exactly once each when registrations are distinct,
for 0, 1 or many listeners), does all listener closing between taking and
releasing the listener lock, closes the mDNS service and releases the
DiscoveryLock exactly when the lock was held, and closes the underlying
node exactly once. -/
theorem C7_close_releases_everything (n : CoreNode) (l : Nat) :
    ((nodeClose n).count (.closeListener l) = n.listeners.count l) ∧
    (n.listeners.Nodup → l ∈ n.listeners →
      (nodeClose n).count (.closeListener l) = 1) ∧
    ((nodeClose n).count .closeMdnsService = if n.mdnsLocked then 1 else 0) ∧
    ((nodeClose n).count .unlockMdnsLock = if n.mdnsLocked then 1 else 0) ∧
    ((nodeClose n).count .closeIpfsNode = 1) ∧
    (∃ tail, nodeClose n =
      [.lockListeners] ++ n.listeners.map CloseEffect.closeListener
        ++ [.unlockListeners] ++ tail) := by
  have hinj : Function.Injective CloseEffect.closeListener := by
    intro a b h
    injection h
  have hcount : (nodeClose n).count (.closeListener l) = n.listeners.count l := by
    cases hm : n.mdnsLocked <;>
      simp [nodeClose, hm, List.count_append, List.count_map_of_injective _ _ hinj,
        List.count_cons, List.count_nil]
  refine ⟨hcount, ?_, ?_, ?_, ?_, ?_⟩
  · intro hnd hmem
    rw [hcount]
    exact List.count_eq_one_of_mem hnd hmem
  · cases hm : n.mdnsLocked <;>
      simp [nodeClose, hm, List.count_append, List.count_cons, List.count_nil,
        List.count_eq_zero, List.mem_map]
  · cases hm : n.mdnsLocked <;>
      simp [nodeClose, hm, List.count_append, List.count_cons, List.count_nil,
        List.count_eq_zero, List.mem_map]
  · cases hm : n.mdnsLocked <;>
      simp [nodeClose, hm, List.count_append, List.count_cons, List.count_nil,
        List.count_eq_zero, List.mem_map]
  · exact ⟨(if n.mdnsLocked then [.closeMdnsService, .unlockMdnsLock] else [])
      ++ [.closeIpfsNode], by simp [nodeClose]⟩

theorem C7_close_releases_everything_witness :
    (nodeClose ⟨[5, 8], true⟩).count (.closeListener 5) = 1 ∧
    (nodeClose ⟨[5, 8], true⟩).count .closeMdnsService = 1 :=
  ⟨(C7_close_releases_everything ⟨[5, 8], true⟩ 5).2.1 (by decide) (by decide),
   by have h := (C7_close_releases_everything ⟨[5, 8], true⟩ 5).2.2.1
      simpa using h⟩

/-!
## The serve family (`go/bind/core/node.go`: `ServeAPIMultiaddr`,
`ServeGatewayMultiaddr`, `ServeConfig`)
-/

/-- Outcomes of address parsing plus `manet.Listen` (one combined external
step: both failures return straight to the caller), and the address a
listener reports. Listeners are identified by `Nat`. -/
structure ServeEnv where
  listen : String → Except Err Nat
  listenerAddr : Nat → String

/-- `Node.ServeAPIMultiaddr` (node.go, lines 382-409): parse and listen on
the multiaddr, register the listener, hand it to the HTTP collaborator on a
detached task (whose errors are only logged), return the listener's
address. -/
def ServeAPIMultiaddr (env : ServeEnv) (st : List Nat) (smaddr : String) :
    Except Err String × List Nat :=
  match env.listen smaddr with
  | .error e => (.error e, st)
  | .ok ml => (.ok (env.listenerAddr ml), st ++ [ml])

/-- `Node.ServeGatewayMultiaddr` (node.go, lines 352-379): identical listen
and registration behaviour; `writable` only parameterises the detached
serving task. -/
def ServeGatewayMultiaddr (env : ServeEnv) (st : List Nat) (smaddr : String)
    (writable : Bool) : Except Err String × List Nat :=
  match env.listen smaddr with
  | .error e => (.error e, st)
  | .ok ml => (.ok (env.listenerAddr ml), st ++ [ml])

/-- The API loop of `Node.ServeConfig` (node.go, lines 319-325): serve each
configured API address, wrapping the first failure with the failing
address. -/
def serveApiAddrs (env : ServeEnv) : List Nat → List String → Except Err Unit × List Nat
  | st, [] => (.ok (), st)
  | st, a :: rest =>
    match ServeAPIMultiaddr env st a with
    | (.error e, st2) => (.error ("cannot serve `" ++ a ++ "`: " ++ e), st2)
    | (.ok _, st2) => serveApiAddrs env st2 rest

/-- The gateway loop of `Node.ServeConfig` (node.go, lines 328-335): serve
each configured gateway address read-only, wrapping the first failure. -/
def serveGatewayAddrs (env : ServeEnv) : List Nat → List String → Except Err Unit × List Nat
  | st, [] => (.ok (), st)
  | st, a :: rest =>
    match ServeGatewayMultiaddr env st a false with
    | (.error e, st2) => (.error ("cannot serve `" ++ a ++ "`: " ++ e), st2)
    | (.ok _, st2) => serveGatewayAddrs env st2 rest

/-- `Node.ServeConfig` (node.go, lines 311-338): read the persisted config,
serve every API address, then every gateway address, returning the first
failure. -/
def ServeConfig (env : ServeEnv) (cfgRead : Except Err KConfig) (st : List Nat) :
    Except Err Unit × List Nat :=
  match cfgRead with
  | .error e => (.error ("unable to get config: " ++ e), st)
  | .ok cfg =>
    match serveApiAddrs env st cfg.apiAddrs with
    | (.error e, st2) => (.error e, st2)
    | (.ok _, st2) => serveGatewayAddrs env st2 cfg.gatewayAddrs

/-- Claim C8: `ServeConfig` iterates the configured API addresses and then
the gateway addresses, stops at the first address whose listen fails and
returns that failure wrapped with the failing address, while every listener
opened for an earlier address stays registered — the listener list only ever
grows, no rollback happens on failure. -/
theorem C8_serveConfig_first_failure :
    (∀ env st a rest e, env.listen a = .error e →
      serveApiAddrs env st (a :: rest) =
        (.error ("cannot serve `" ++ a ++ "`: " ++ e), st)) ∧
    (∀ env st a rest ml, env.listen a = .ok ml →
      serveApiAddrs env st (a :: rest) = serveApiAddrs env (st ++ [ml]) rest) ∧
    (∀ env st a rest e, env.listen a = .error e →
      serveGatewayAddrs env st (a :: rest) =
        (.error ("cannot serve `" ++ a ++ "`: " ++ e), st)) ∧
    (∀ env st a rest ml, env.listen a = .ok ml →
      serveGatewayAddrs env st (a :: rest) = serveGatewayAddrs env (st ++ [ml]) rest) ∧
    (∀ env cfgRead st, ∃ opened, (ServeConfig env cfgRead st).2 = st ++ opened) ∧
    (∀ env cfg st e st2, serveApiAddrs env st cfg.apiAddrs = (.error e, st2) →
      ServeConfig env (.ok cfg) st = (.error e, st2)) ∧
    (∀ env cfg st st2, serveApiAddrs env st cfg.apiAddrs = (.ok (), st2) →
      ServeConfig env (.ok cfg) st = serveGatewayAddrs env st2 cfg.gatewayAddrs) := by
  have apiGrow : ∀ env addrs st, ∃ opened, (serveApiAddrs env st addrs).2 = st ++ opened := by
    intro env addrs
    induction addrs with
    | nil => intro st; exact ⟨[], by simp [serveApiAddrs]⟩
    | cons a rest ih =>
      intro st
      cases h : env.listen a with
      | error e =>
        exact ⟨[], by simp [serveApiAddrs, ServeAPIMultiaddr, h]⟩
      | ok ml =>
        obtain ⟨opened, hop⟩ := ih (st ++ [ml])
        refine ⟨[ml] ++ opened, ?_⟩
        simp only [serveApiAddrs, ServeAPIMultiaddr, h, hop, List.append_assoc]
  have gwGrow : ∀ env addrs st, ∃ opened, (serveGatewayAddrs env st addrs).2 = st ++ opened := by
    intro env addrs
    induction addrs with
    | nil => intro st; exact ⟨[], by simp [serveGatewayAddrs]⟩
    | cons a rest ih =>
      intro st
      cases h : env.listen a with
      | error e =>
        exact ⟨[], by simp [serveGatewayAddrs, ServeGatewayMultiaddr, h]⟩
      | ok ml =>
        obtain ⟨opened, hop⟩ := ih (st ++ [ml])
        refine ⟨[ml] ++ opened, ?_⟩
        simp only [serveGatewayAddrs, ServeGatewayMultiaddr, h, hop, List.append_assoc]
  refine ⟨?_, ?_, ?_, ?_, ?_, ?_, ?_⟩
  · intro env st a rest e h
    simp only [serveApiAddrs, ServeAPIMultiaddr, h]
  · intro env st a rest ml h
    simp only [serveApiAddrs, ServeAPIMultiaddr, h]
  · intro env st a rest e h
    simp only [serveGatewayAddrs, ServeGatewayMultiaddr, h]
  · intro env st a rest ml h
    simp only [serveGatewayAddrs, ServeGatewayMultiaddr, h]
  · intro env cfgRead st
    cases cfgRead with
    | error e => exact ⟨[], by simp [ServeConfig]⟩
    | ok cfg =>
      cases hapi : serveApiAddrs env st cfg.apiAddrs with
      | mk r st2 =>
        cases r with
        | error e =>
          obtain ⟨opened, hop⟩ := apiGrow env cfg.apiAddrs st
          refine ⟨opened, ?_⟩
          simp only [ServeConfig, hapi]
          rw [← hop, hapi]
        | ok u =>
          obtain ⟨op1, hop1⟩ := apiGrow env cfg.apiAddrs st
          obtain ⟨op2, hop2⟩ := gwGrow env cfg.gatewayAddrs st2
          refine ⟨op1 ++ op2, ?_⟩
          simp only [ServeConfig, hapi, hop2]
          have : st2 = st ++ op1 := by rw [← hop1, hapi]
          rw [this, List.append_assoc]
  · intro env cfg st e st2 h
    simp only [ServeConfig, h]
  · intro env cfg st st2 h
    simp only [ServeConfig, h]

/-- A serve environment in which the first API address binds to listener 1
and every other address fails to bind. -/
def serveEnv0 : ServeEnv :=
  ⟨fun a => if a == "api1" then .ok 1 else .error "bind failed",
   fun ml => toString ml⟩

theorem C8_serveConfig_first_failure_witness :
    serveApiAddrs serveEnv0 [1] ["api2"] =
      (.error ("cannot serve `" ++ "api2" ++ "`: " ++ "bind failed"), [1]) ∧
    serveApiAddrs serveEnv0 [] ["api1", "api2"] = serveApiAddrs serveEnv0 [1] ["api2"] :=
  ⟨C8_serveConfig_first_failure.1 serveEnv0 [1] "api2" [] "bind failed" rfl,
   C8_serveConfig_first_failure.2.1 serveEnv0 [] "api1" ["api2"] 1 rfl⟩

/-!
## Option composers (`go/pkg/ipfsmobile/host.go`, `routing.go`)
-/

/-- The `HostConfig` value (host.go, lines 39-45): an optional
post-construction hook and extra libp2p options. The hook is modelled by
what it returns for each host. -/
structure HostConfigM where
  configFunc : Option (Nat → Option Err)
  options : List P2pOpt

/-- `NewHostConfigOption` (host.go, lines 90-115): append the config's extra
options to the caller's options, invoke the base constructor, and on success
run the hook if present, wrapping its failure. The second component counts
hook invocations during the construction. -/
def NewHostConfigOption (hopt : List P2pOpt → Except Err Nat) (cfg : HostConfigM)
    (options : List P2pOpt) : Except Err Nat × Nat :=
  let options := options ++ cfg.options
  match hopt options with
  | .error e => (.error e, 0)
  | .ok host =>
    match cfg.configFunc with
    | none => (.ok host, 0)
    | some f =>
      match f host with
      | some e => (.error ("unable to apply host config: " ++ e), 1)
      | none => (.ok host, 1)

/-- `NewRoutingConfigOption` (routing.go, lines 47-72): invoke the base
routing constructor (its five inputs are fixed by the build, so the base is
modelled by its outcome), then run the routing hook if present, wrapping its
failure. The second component counts hook invocations. -/
def NewRoutingConfigOption (ro : Except Err Nat)
    (rcConfigFunc : Option (Nat → Option Err)) : Except Err Nat × Nat :=
  match ro with
  | .error e => (.error e, 0)
  | .ok routing =>
    match rcConfigFunc with
    | none => (.ok routing, 0)
    | some f =>
      match f routing with
      | some e => (.error ("failed to config routing: " ++ e), 1)
      | none => (.ok routing, 1)

/-- Claim C9: with a nil hook the composed host constructor invokes no hook
and returns exactly the base constructor's result on the combined option
list — same host, same error; in every construction the hook runs at most
once; the routing composer behaves the same way. -/
theorem C9_nil_hook_identity :
    (∀ hopt cfgOpts options,
      (NewHostConfigOption hopt ⟨none, cfgOpts⟩ options).1 = hopt (options ++ cfgOpts)) ∧
    (∀ hopt cfgOpts options,
      (NewHostConfigOption hopt ⟨none, cfgOpts⟩ options).2 = 0) ∧
    (∀ hopt cfg options, (NewHostConfigOption hopt cfg options).2 ≤ 1) ∧
    (∀ ro, (NewRoutingConfigOption ro none).1 = ro) ∧
    (∀ ro rc, (NewRoutingConfigOption ro rc).2 ≤ 1) := by
  refine ⟨?_, ?_, ?_, ?_, ?_⟩
  · intro hopt cfgOpts options
    simp only [NewHostConfigOption]
    cases hopt (options ++ cfgOpts) <;> rfl
  · intro hopt cfgOpts options
    simp only [NewHostConfigOption]
    cases hopt (options ++ cfgOpts) <;> rfl
  · intro hopt cfg options
    simp only [NewHostConfigOption]
    cases hopt (options ++ cfg.options) with
    | error e => exact Nat.zero_le 1
    | ok host =>
      cases cfg.configFunc with
      | none => exact Nat.zero_le 1
      | some f => cases h2 : f host <;> simp [h2]
  · intro ro
    cases ro <;> rfl
  · intro ro rc
    cases ro with
    | error e => exact Nat.zero_le 1
    | ok routing =>
      cases rc with
      | none => exact Nat.zero_le 1
      | some f => cases h2 : f routing <;> simp [NewRoutingConfigOption, h2]

/-!
## The Android bridge (`android/bridge/.../IPFS.java`)
-/

/-- Outcomes of the calls `IPFS.start()` makes, in program order: opening
the per-start debug log file under the repository path, `Core.openRepo`,
`Core.newNode`, `serveUnixSocketAPI`, `serveConfig`, `Core.newUDSShell`
(log writes are taken to succeed once the file is open). -/
structure AndroidEnv where
  openLog : Except Err Unit
  openRepo : Except Err Unit
  newNode : Except Err Nat
  serveUnixErr : Option Err
  serveConfigErr : Option Err
  newShell : Except Err Nat

/-- The bridge instance fields `node`, `repo`, `shell`. -/
structure AndroidState where
  node : Option Nat
  repoOpen : Bool
  shell : Option Nat
deriving DecidableEq, Repr

/-- How a Java method call ends: a normal return or a thrown exception,
identified by its class name. -/
inductive JavaOutcome where
  | normal
  | threw (exn : String)
deriving DecidableEq, Repr

/-- `IPFS.isStarted` (IPFS.java, lines 161-163): the node field is set. -/
def isStarted (st : AndroidState) : Bool :=
  st.node.isSome

/-- `IPFS.start` (IPFS.java, lines 171-289): reject an already-started
instance; open the debug log in a try-with-resources whose `IOException`
handler only logs (so a log-open failure returns normally); inside, open
the repo, create the node, serve the UDS API, serve the configured
addresses and create the shell, turning any inner failure into a thrown
`NodeStartException`. -/
def ipfsStart (env : AndroidEnv) (st : AndroidState) : JavaOutcome × AndroidState :=
  if st.node.isSome then
    (.threw "NodeStartException", st)
  else
    match env.openLog with
    | .error _ => (.normal, st)
    | .ok _ =>
      match env.openRepo with
      | .error _ => (.threw "NodeStartException", st)
      | .ok _ =>
        let st := { st with repoOpen := true }
        match env.newNode with
        | .error _ => (.threw "NodeStartException", st)
        | .ok nd =>
          let st := { st with node := some nd }
          match env.serveUnixErr with
          | some _ => (.threw "NodeStartException", st)
          | none =>
            match env.serveConfigErr with
            | some _ => (.threw "NodeStartException", st)
            | none =>
              match env.newShell with
              | .error _ => (.threw "NodeStartException", st)
              | .ok sh => (.normal, { st with shell := some sh })

/-- Claim C10: when `start()` is called on a non-started instance and
opening the per-start debug log file fails with an I/O error, `start()`
returns normally, the node is never constructed, no exception is thrown,
and `isStarted()` still reports false. -/
theorem C10_logOpen_failure_swallowed (env : AndroidEnv) (st : AndroidState) (e : Err)
    (hnode : st.node = none) (hlog : env.openLog = .error e) :
    ipfsStart env st = (.normal, st) ∧
    isStarted (ipfsStart env st).2 = false := by
  have h : ipfsStart env st = (.normal, st) := by
    simp only [ipfsStart, hnode, Option.isSome_none, Bool.false_eq_true, if_false, hlog]
  exact ⟨h, by rw [h]; simp [isStarted, hnode]⟩

/-- A bridge environment whose log-file open fails while everything else
would succeed. -/
def androidEnv0 : AndroidEnv :=
  ⟨.error "EROFS", .ok (), .ok 2, none, none, .ok 3⟩

theorem C10_logOpen_failure_swallowed_witness :
    ipfsStart androidEnv0 ⟨none, false, none⟩ = (.normal, ⟨none, false, none⟩) ∧
    isStarted (ipfsStart androidEnv0 ⟨none, false, none⟩).2 = false :=
  C10_logOpen_failure_swallowed androidEnv0 ⟨none, false, none⟩ "EROFS" rfl rfl
